import Mathlib

/-!
Verification of the schedule-resolution engine of `auto_close`
(`src/packaging/desktop_scheduler_qt.py`): holiday calendar, day
eligibility, playlist rotation, upcoming-run projection and the trigger
check. Python functions are shallowly embedded as executable Lean
functions; code that can raise (`datetime.replace`, `int(...)`, list
indexing) is embedded with `Option`/`Except`.
-/

namespace AutoCloseSpec

/-- A calendar date, as `datetime.date(year, month, day)`. -/
structure Date where
  year : Nat
  month : Nat
  day : Nat
deriving DecidableEq, Repr

/-- Leap-year rule of the proleptic Gregorian calendar (as `calendar.isleap`). -/
def isLeap (y : Nat) : Bool :=
  y % 4 == 0 && (y % 100 != 0 || y % 400 == 0)

/-- Number of days in a month, used by `datetime.date` validity checking. -/
def daysInMonth (y m : Nat) : Nat :=
  if m == 2 then (if isLeap y then 29 else 28)
  else if m == 4 || m == 6 || m == 9 || m == 11 then 30
  else 31

/-- Successor date (used to embed `timedelta(days=1)` steps). -/
def Date.next (d : Date) : Date :=
  if d.day < daysInMonth d.year d.month then ⟨d.year, d.month, d.day + 1⟩
  else if d.month < 12 then ⟨d.year, d.month + 1, 1⟩
  else ⟨d.year + 1, 1, 1⟩

/-- `d + timedelta(days = n)`. -/
def Date.addDays (d : Date) : Nat → Date
  | 0 => d
  | n + 1 => (Date.addDays d n).next

/-- `date.weekday()`: Monday = 0 .. Sunday = 6 (Sakamoto's method, shifted
from its Sunday-based result to Python's Monday-based convention). -/
def Date.weekday (dt : Date) : Nat :=
  let y := if dt.month < 3 then dt.year - 1 else dt.year
  let t := [0, 3, 2, 5, 0, 3, 5, 1, 4, 6, 2, 4].getD (dt.month - 1) 0
  (y + y / 4 - y / 100 + y / 400 + t + dt.day + 6) % 7

/-- Python `date` comparison `<` (lexicographic on year, month, day). -/
def dateLt (a b : Date) : Bool :=
  a.year < b.year ||
    (a.year == b.year &&
      (a.month < b.month || (a.month == b.month && a.day < b.day)))

/-- Python `date` comparison `<=`. -/
def dateLe (a b : Date) : Bool :=
  dateLt a b || a == b

/-- The decimal digit character for `n % 10`. -/
def digitChar (n : Nat) : Char := Char.ofNat (48 + n % 10)

/-- Two-digit zero-padded rendering (`"%02d"`; faithful for `n ≤ 99`, which
covers the month/day ranges `datetime.date` guarantees). -/
def pad2 (n : Nat) : List Char := [digitChar (n / 10), digitChar n]

/-- Four-digit zero-padded rendering (`"%04d"`; faithful for `n ≤ 9999`, the
year range `datetime.date` guarantees). -/
def pad4 (n : Nat) : List Char :=
  [digitChar (n / 1000), digitChar (n / 100), digitChar (n / 10), digitChar n]

/-- `date.isoformat()`: `"YYYY-MM-DD"`. -/
def Date.iso (d : Date) : String :=
  String.mk (pad4 d.year ++ '-' :: (pad2 d.month ++ '-' :: pad2 d.day))

/-- A wall-clock instant: a date plus seconds since local midnight
(embeds `datetime.datetime`; sub-second precision is irrelevant here since
every compared instant has `second=0, microsecond=0` or whole seconds). -/
structure DateTime where
  date : Date
  sec : Nat
deriving DecidableEq, Repr

/-- Python `datetime` comparison `<`. -/
def dtLt (a b : DateTime) : Bool :=
  dateLt a.date b.date || (a.date == b.date && a.sec < b.sec)

/-- `now + timedelta(days = offset)`. -/
def DateTime.addDays (t : DateTime) (n : Nat) : DateTime :=
  ⟨t.date.addDays n, t.sec⟩

/-- Python `str.split(sep)` for a one-character separator, over the
character list (`"".split(sep) == [""]`; empty fields are kept). -/
def splitChar (sep : Char) : List Char → List (List Char)
  | [] => [[]]
  | c :: rest =>
    match splitChar sep rest with
    | [] => if c = sep then [[], []] else [[c]]
    | g :: gs => if c = sep then [] :: g :: gs else (c :: g) :: gs

/-- `s.split(sep)` as a list of strings. -/
def pySplit (s : String) (sep : Char) : List String :=
  (splitChar sep s.data).map String.mk

/-- The whitespace characters `str.strip()` removes. -/
def pyIsSpace (c : Char) : Bool :=
  c = ' ' || c = '\t' || c = '\n' || c = '\r' || c = '\x0b' || c = '\x0c'

/-- `str.strip()` over the character list. -/
def pyStrip (cs : List Char) : List Char :=
  ((cs.dropWhile pyIsSpace).reverse.dropWhile pyIsSpace).reverse

/-- One or more decimal digits. -/
def digitsOk (cs : List Char) : Bool :=
  !(cs.isEmpty) && cs.all Char.isDigit

/-- Digit characters interpreted as a base-10 natural number. -/
def digitsVal (cs : List Char) : Nat :=
  cs.foldl (fun a c => a * 10 + (c.toNat - 48)) 0

/-- Python `int(str)`: optional surrounding whitespace, optional sign, then
one or more decimal digits (digit-group underscores are not modelled). -/
def parsePyInt (s : String) : Option Int :=
  match pyStrip s.data with
  | '-' :: rest => if digitsOk rest then some (-(digitsVal rest : Nat)) else none
  | '+' :: rest => if digitsOk rest then some (digitsVal rest : Nat) else none
  | rest => if digitsOk rest then some (digitsVal rest : Nat) else none

/-- `hh, mm = map(int, time_str.split(":"))`: exactly two colon-separated
fields, each parsed by `int`; any other shape raises, embedded as `none`. -/
def parseTimeHM (s : String) : Option (Int × Int) :=
  match pySplit s ':' with
  | [hs, ms] =>
    match parsePyInt hs, parsePyInt ms with
    | some h, some m => some (h, m)
    | _, _ => none
  | _ => none

/-- `current.replace(hour=hh, minute=mm, second=0, microsecond=0)`:
raises `ValueError` (embedded as `none`) unless `0 ≤ hh ≤ 23` and
`0 ≤ mm ≤ 59`. -/
def replaceTime (t : DateTime) (hh mm : Int) : Option DateTime :=
  if 0 ≤ hh ∧ hh ≤ 23 ∧ 0 ≤ mm ∧ mm ≤ 59 then
    some ⟨t.date, (hh * 3600 + mm * 60).toNat⟩
  else
    none

/-- `datetime.strptime(s, "%Y-%m-%d").date()`: four-digit year, one- or
two-digit month/day, full-string match, and `datetime.date` validity
(year ≥ 1, month 1..12, day within the month); failure raises, embedded
as `none`. -/
def parsePyDate (s : String) : Option Date :=
  match splitChar '-' s.data with
  | [ys, ms, ds] =>
    if ys.length == 4 && ys.all Char.isDigit &&
        decide (1 ≤ ms.length) && ms.length ≤ 2 && ms.all Char.isDigit &&
        decide (1 ≤ ds.length) && ds.length ≤ 2 && ds.all Char.isDigit then
      let y := digitsVal ys
      let m := digitsVal ms
      let d := digitsVal ds
      if 1 ≤ y ∧ 1 ≤ m ∧ m ≤ 12 ∧ 1 ≤ d ∧ d ≤ daysInMonth y m then
        some ⟨y, m, d⟩
      else none
    else none
  | _ => none

/-- Python truthiness of an `Optional[str]`: `None` and `""` are falsy. -/
def pyTruthy : Option String → Bool
  | none => false
  | some s => !(s == "")

/-- `DaySchedule` (one weekday slot), as the `@dataclass DaySchedule`. -/
structure DaySchedule where
  enabled : Bool := true
  time : String := "09:00"
  auto_assign : Bool := true
  audio_path : Option String := none
  allow_remote : Bool := true
  allow_local_shutdown : Bool := true
  last_ran : Option String := none
deriving DecidableEq, Repr

/-- One entry of `holiday_ranges`: a JSON dict that should carry `"start"`
and `"end"` date strings; a missing key raises `KeyError` inside the
`try` of `is_holiday`, so both fields are `Option`. -/
structure HolidayRange where
  rstart : Option String := none
  rend : Option String := none
deriving DecidableEq, Repr

/-- The seven day slots; `SchedulerConfig.from_dict` guarantees all seven
weekday keys are present, which this structure enforces. -/
structure WeekDays where
  mon : DaySchedule := {}
  tue : DaySchedule := {}
  wed : DaySchedule := {}
  thu : DaySchedule := {}
  fri : DaySchedule := {}
  sat : DaySchedule := {}
  sun : DaySchedule := {}
deriving DecidableEq, Repr

/-- `DAY_KEYS`. -/
def dayKeys : List String := ["mon", "tue", "wed", "thu", "fri", "sat", "sun"]

/-- `cfg.days.get(day_key)`: dictionary lookup, `None` for unknown keys. -/
def WeekDays.lookup (ds : WeekDays) (k : String) : Option DaySchedule :=
  if k = "mon" then some ds.mon
  else if k = "tue" then some ds.tue
  else if k = "wed" then some ds.wed
  else if k = "thu" then some ds.thu
  else if k = "fri" then some ds.fri
  else if k = "sat" then some ds.sat
  else if k = "sun" then some ds.sun
  else none

/-- `cfg.days[day_key]` for the weekday keys the engine uses (always
present by the all-seven-keys invariant; the default is unreachable for
keys drawn from `DAY_KEYS`). -/
def WeekDays.byKey (ds : WeekDays) (k : String) : DaySchedule :=
  (ds.lookup k).getD {}

/-- The fields of `SchedulerConfig` the resolution engine reads. -/
structure SchedulerConfig where
  playlist : List String := []
  playlist_rotation : Int := 0
  enable_remote_shutdown : Bool := true
  enable_local_shutdown : Bool := true
  holidays_enabled : Bool := true
  auto_skip_weekends : Bool := true
  holidays : List String := []
  holiday_ranges : List HolidayRange := []
  days : WeekDays := {}
deriving DecidableEq, Repr

/-- The range test inside `is_holiday`'s loop: parse `rng["start"]` and
`rng["end"]` with `strptime` (any exception skips the entry) and test
`start <= target <= end`. -/
def rangeMatches (target : Date) (rng : HolidayRange) : Bool :=
  match rng.rstart.bind parsePyDate, rng.rend.bind parsePyDate with
  | some s, some e => dateLe s target && dateLe target e
  | _, _ => false

/-- `is_holiday(cfg, target)` (packaging variant, lines 296-309). -/
def is_holiday (cfg : SchedulerConfig) (target : Date) : Bool :=
  if cfg.auto_skip_weekends ∧ 5 ≤ target.weekday then true
  else if target.iso ∈ cfg.holidays then true
  else cfg.holiday_ranges.any (fun rng => rangeMatches target rng)

/-- `is_day_eligible(cfg, day_cfg, current_date)` (lines 312-319). -/
def is_day_eligible (cfg : SchedulerConfig) (day_cfg : DaySchedule)
    (current : Date) : Bool :=
  if !day_cfg.enabled then false
  else if cfg.holidays_enabled && is_holiday cfg current then false
  else if day_cfg.last_ran = some current.iso then false
  else true

/-- The `last_ran` stamp scheduled by `_check_trigger` after a firing:
`day_cfg.last_ran = now.date().isoformat()`. -/
def DaySchedule.mark_fired (day : DaySchedule) (d : Date) : DaySchedule :=
  { day with last_ran := some d.iso }

/-- `SchedulerEngine._resolve_audio(cfg, day_cfg)` (lines 522-532), with
the list indexing made explicit (`IndexError` as `.error`; it is in fact
unreachable, see `resolve_audioE_ok`). -/
def resolve_audioE (cfg : SchedulerConfig) (day_cfg : DaySchedule) :
    Except String (Option String) :=
  if !day_cfg.auto_assign && pyTruthy day_cfg.audio_path then
    .ok day_cfg.audio_path
  else if cfg.playlist = [] then
    .ok day_cfg.audio_path
  else
    let index := (cfg.playlist_rotation % (cfg.playlist.length : Int)).toNat
    if h : index < cfg.playlist.length then
      .ok (some (cfg.playlist.get ⟨index, h⟩))
    else
      .error "IndexError"

/-- Value returned by `_resolve_audio` (total form; agrees with
`resolve_audioE`, which never errors). -/
def resolve_audio (cfg : SchedulerConfig) (day_cfg : DaySchedule) :
    Option String :=
  match resolve_audioE cfg day_cfg with
  | .ok a => a
  | .error _ => none

/-- Whether `_resolve_audio` schedules the deferred rotation bump
(`QTimer.singleShot(0, ... _bump)`): exactly when it reached the playlist
branch. -/
def resolve_audio_bumps (cfg : SchedulerConfig) (day_cfg : DaySchedule) :
    Bool :=
  if !day_cfg.auto_assign && pyTruthy day_cfg.audio_path then false
  else if cfg.playlist = [] then false
  else true

/-- The deferred `_bump`:
`playlist_rotation = (playlist_rotation + 1) % max(1, len(playlist))`. -/
def bump_rotation (cfg : SchedulerConfig) : SchedulerConfig :=
  { cfg with
    playlist_rotation :=
      (cfg.playlist_rotation + 1) % (max 1 (cfg.playlist.length : Int)) }

/-- `@dataclass UpcomingRun` (lines 322-329). -/
structure UpcomingRun where
  _when : DateTime
  day_key : String
  audio_path : Option String
  auto_assign : Bool
  remote_allowed : Bool
  local_allowed : Bool
deriving DecidableEq, Repr

/-- Error message for the uncaught `datetime.replace` failure. -/
def replaceValueError : String := "ValueError: hour or minute out of range"

/-- Error message for the uncaught `int()`/unpacking failure in
`_check_trigger`. -/
def parseValueError : String := "ValueError: invalid time string"

/-- The `for offset in range(horizon_days)` loop of `compute_upcoming_runs`
(lines 338-368). `fuel` counts the remaining offsets, `index` is the local
simulated rotation index, `runs` the accumulator. The `try` around the
`int` parse is the `none` branch of `parseTimeHM`; the `replace` call sits
outside that `try`, so its failure aborts the whole computation. -/
def upcomingAux (cfg : SchedulerConfig) (now : DateTime) (limit : Option Nat) :
    Nat → Nat → Nat → List UpcomingRun → Except String (List UpcomingRun)
  | 0, _, _, runs => .ok runs
  | fuel + 1, offset, index, runs =>
    let current := now.addDays offset
    let wd := current.date.weekday
    let day_key := dayKeys.getD wd ""
    match cfg.days.lookup day_key with
    | none => upcomingAux cfg now limit fuel (offset + 1) index runs
    | some day_cfg =>
      if ¬ (is_day_eligible cfg day_cfg current.date = true) then
        upcomingAux cfg now limit fuel (offset + 1) index runs
      else
        match parseTimeHM day_cfg.time with
        | none => upcomingAux cfg now limit fuel (offset + 1) index runs
        | some (hh, mm) =>
          match replaceTime current hh mm with
          | none => .error replaceValueError
          | some scheduled =>
            if dtLt scheduled now then
              upcomingAux cfg now limit fuel (offset + 1) index runs
            else
              let n := cfg.playlist.length
              let audio : Option String :=
                if day_cfg.auto_assign = true ∧ n ≠ 0 then
                  some (cfg.playlist.getD (index % n) "")
                else if pyTruthy day_cfg.audio_path then day_cfg.audio_path
                else if day_cfg.auto_assign = true ∧ n ≠ 0 then
                  some (cfg.playlist.getD (index % n) "")
                else none
              let runs1 := runs ++
                [{ _when := scheduled, day_key := day_key,
                   audio_path := audio, auto_assign := day_cfg.auto_assign,
                   remote_allowed :=
                     cfg.enable_remote_shutdown && day_cfg.allow_remote,
                   local_allowed :=
                     cfg.enable_local_shutdown && day_cfg.allow_local_shutdown }]
              let index1 :=
                if day_cfg.auto_assign = true ∧ n ≠ 0 then (index + 1) % n
                else index
              match limit with
              | some l =>
                if l ≤ runs1.length then .ok runs1
                else upcomingAux cfg now limit fuel (offset + 1) index1 runs1
              | none => upcomingAux cfg now limit fuel (offset + 1) index1 runs1

/-- The starting local rotation index:
`rotation = playlist_rotation % max(1, playlist_len) if playlist_len else 0`. -/
def startRotation (cfg : SchedulerConfig) : Nat :=
  if cfg.playlist.length ≠ 0 then
    (cfg.playlist_rotation % (max 1 (cfg.playlist.length : Int))).toNat
  else 0

/-- `compute_upcoming_runs(cfg, horizon_days, limit)` (lines 332-369),
with `datetime.now()` passed explicitly. -/
def compute_upcoming_runs (cfg : SchedulerConfig) (now : DateTime)
    (horizon_days : Nat := 28) (limit : Option Nat := none) :
    Except String (List UpcomingRun) :=
  upcomingAux cfg now limit horizon_days 0 (startRotation cfg) []

/-- `predict_playlist_for_day(cfg, target_day)` (packaging variant,
lines 372-378). -/
def predict_playlist_for_day (cfg : SchedulerConfig) (now : DateTime)
    (target_day : String) : Except String (Option String) :=
  if target_day ∉ dayKeys then .ok none
  else
    match compute_upcoming_runs cfg now 28 none with
    | .error e => .error e
    | .ok runs =>
      match runs.find? (fun run => run.day_key = target_day) with
      | some run => .ok run.audio_path
      | none => .ok none

/-- The payload of the `schedule_triggered` signal. -/
structure FireEvent where
  day_key : String
  audio_path : String
  remote_allowed : Bool
  local_allowed : Bool
deriving DecidableEq, Repr

/-- `SchedulerEngine._check_trigger` (lines 501-520): `none` when nothing
fires, `some ev` when `schedule_triggered` is emitted; the unguarded
`int` parse and `replace` raise (`.error`). -/
def check_trigger (cfg : SchedulerConfig) (now : DateTime) :
    Except String (Option FireEvent) :=
  let day_key := dayKeys.getD now.date.weekday ""
  let day_cfg := cfg.days.byKey day_key
  if ¬ (is_day_eligible cfg day_cfg now.date = true) then .ok none
  else
    match parseTimeHM day_cfg.time with
    | none => .error parseValueError
    | some (hh, mm) =>
      match replaceTime now hh mm with
      | none => .error replaceValueError
      | some target =>
        if 0 ≤ (now.sec : Int) - target.sec ∧ (now.sec : Int) - target.sec ≤ 30 then
          .ok (some
            { day_key := day_key,
              audio_path := (resolve_audio cfg day_cfg).getD "",
              remote_allowed :=
                cfg.enable_remote_shutdown && day_cfg.allow_remote,
              local_allowed :=
                cfg.enable_local_shutdown && day_cfg.allow_local_shutdown })
        else .ok none

/-- Firing the given projected runs in chronological order: each firing
calls `_resolve_audio` on the run's day slot and applies the rotation bump
it schedules before the next firing. Records, per firing, the slot's
`auto_assign` flag and the resolved audio. -/
def fireSimRuns (cfg : SchedulerConfig) :
    List UpcomingRun → List (Bool × Option String)
  | [] => []
  | run :: rest =>
    let day_cfg := cfg.days.byKey run.day_key
    (run.auto_assign, resolve_audio cfg day_cfg) ::
      fireSimRuns
        (if resolve_audio_bumps cfg day_cfg then bump_rotation cfg else cfg)
        rest

/-- Audio refs the projection attached to its auto-assigned runs. -/
def projectedAutoRefs (runs : List UpcomingRun) : List (Option String) :=
  runs.filterMap (fun run =>
    if run.auto_assign then some run.audio_path else none)

/-- Audio refs the fire path produces at the auto-assigned firings. -/
def firedAutoRefs (cfg : SchedulerConfig) (runs : List UpcomingRun) :
    List (Option String) :=
  (fireSimRuns cfg runs).filterMap (fun p =>
    if p.1 then some p.2 else none)

/-- One UI call of `compute_upcoming_runs`, as a state transformer over the
persisted configuration paired with its result. -/
def projectionCall (now : DateTime) (horizon_days : Nat) (limit : Option Nat)
    (cfg : SchedulerConfig) :
    SchedulerConfig × Except String (List UpcomingRun) :=
  (cfg, compute_upcoming_runs cfg now horizon_days limit)

/-- One UI call of `predict_playlist_for_day`, as a state transformer. -/
def predictCall (now : DateTime) (target_day : String)
    (cfg : SchedulerConfig) :
    SchedulerConfig × Except String (Option String) :=
  (cfg, predict_playlist_for_day cfg now target_day)

/-! Concrete configurations used by counterexamples and witnesses. -/

/-- A disabled day slot. -/
def offDay : DaySchedule := { enabled := false }

/-- C2 counterexample: holiday feature disabled, weekend auto-skip on. -/
def c2xCfg : SchedulerConfig :=
  { holidays_enabled := false, auto_skip_weekends := true }

/-- C2 counterexample date: Saturday 2024-01-06. -/
def c2xDate : Date := ⟨2024, 1, 6⟩

/-- C3 witness slot: enabled Monday slot. -/
def c3wDay : DaySchedule := {}

/-- C3 witness configuration: holiday feature off. -/
def c3wCfg : SchedulerConfig := { holidays_enabled := false }

/-- C4 counterexample: manual slot with no manual audio, non-empty playlist. -/
def c4xCfg : SchedulerConfig := { playlist := ["track_a"], playlist_rotation := 0 }

/-- C4 counterexample day slot. -/
def c4xDay : DaySchedule := { auto_assign := false, audio_path := none }

/-- C4 witness: manual slot with a manual audio file set. -/
def c4wCfg : SchedulerConfig := { playlist := ["track_a"] }

/-- C4 witness day slot. -/
def c4wDay : DaySchedule := { auto_assign := false, audio_path := some "m.mp3" }

/-- C1 counterexample configuration: a manual slot without a manual audio
ref (Monday) scheduled before an auto slot (Tuesday), non-empty playlist. -/
def c1xCfg : SchedulerConfig :=
  { playlist := ["a", "b"], playlist_rotation := 0, holidays_enabled := false,
    days := { mon := { auto_assign := false, audio_path := none },
              tue := { auto_assign := true },
              wed := offDay, thu := offDay, fri := offDay,
              sat := offDay, sun := offDay } }

/-- Monday 2024-01-01 at 00:00:00. -/
def mondayMidnight : DateTime := ⟨⟨2024, 1, 1⟩, 0⟩

/-- C1 witness configuration: only Monday enabled, auto-assigned. -/
def c1wCfg : SchedulerConfig :=
  { playlist := ["a", "b"], playlist_rotation := 0, holidays_enabled := false,
    days := { mon := {}, tue := offDay, wed := offDay, thu := offDay,
              fri := offDay, sat := offDay, sun := offDay } }

/-- The runs `compute_upcoming_runs c1wCfg mondayMidnight 15 none` yields:
three Mondays with the rotation simulated locally. -/
def c1wRuns : List UpcomingRun :=
  [{ _when := ⟨⟨2024, 1, 1⟩, 32400⟩, day_key := "mon", audio_path := some "a",
     auto_assign := true, remote_allowed := true, local_allowed := true },
   { _when := ⟨⟨2024, 1, 8⟩, 32400⟩, day_key := "mon", audio_path := some "b",
     auto_assign := true, remote_allowed := true, local_allowed := true },
   { _when := ⟨⟨2024, 1, 15⟩, 32400⟩, day_key := "mon", audio_path := some "a",
     auto_assign := true, remote_allowed := true, local_allowed := true }]

/-- C5 failing input: every slot has the out-of-range time "25:00". -/
def c5Cfg : SchedulerConfig :=
  { holidays_enabled := false,
    days := { mon := { time := "25:00" }, tue := { time := "25:00" },
              wed := { time := "25:00" }, thu := { time := "25:00" },
              fri := { time := "25:00" }, sat := { time := "25:00" },
              sun := { time := "25:00" } } }

/-- C5 failing input for the trigger path: Monday slot with a
non-numeric time string. -/
def c5CfgB : SchedulerConfig :=
  { holidays_enabled := false, days := { mon := { time := "nine" } } }

/-- C6 witness configuration. -/
def c6wCfg : SchedulerConfig :=
  { playlist := ["a"], holidays_enabled := false, days := { mon := {} } }

/-- Monday 2024-01-01 at 09:00:10, inside the 30-second window after the
default 09:00 fire time. -/
def c6wNow : DateTime := ⟨⟨2024, 1, 1⟩, 32410⟩

/-- C8 witness configuration: three tracks, cursor at 1. -/
def c8wCfg : SchedulerConfig := { playlist := ["a", "b", "c"], playlist_rotation := 1 }

/-- C8 witness day slot. -/
def c8wDay : DaySchedule := {}

/-- C9 witness: empty playlist, auto-assigned slot with a manual fallback. -/
def c9wCfg : SchedulerConfig := { playlist := [] }

/-- C9 witness day slot. -/
def c9wDay : DaySchedule := { auto_assign := true, audio_path := some "fallback.mp3" }

/-- C10 witness configuration. -/
def c10wCfg : SchedulerConfig := { playlist := ["a"] }

/-! Helper lemmas. -/

theorem emod_toNat_lt (c : Int) (n : Nat) (hn : n ≠ 0) : (c % (n : Int)).toNat < n := by
  have h0 : (0 : Int) < (n : Int) := by exact_mod_cast Nat.pos_of_ne_zero hn
  have h1 := Int.emod_nonneg c (by omega : (n : Int) ≠ 0)
  have h2 := Int.emod_lt_of_pos c h0
  omega

theorem natCast_emod (m n : Nat) : (m : Int) % (n : Int) = ((m % n : Nat) : Int) := by
  push_cast
  rfl

theorem byKey_of_lookup {ds : WeekDays} {k : String} {d : DaySchedule}
    (h : ds.lookup k = some d) : ds.byKey k = d := by
  unfold WeekDays.byKey
  rw [h]
  rfl

theorem resolve_audioE_eq (cfg : SchedulerConfig) (day_cfg : DaySchedule) :
    resolve_audioE cfg day_cfg = .ok (resolve_audio cfg day_cfg) := by
  unfold resolve_audio resolve_audioE
  by_cases h1 : (!day_cfg.auto_assign && pyTruthy day_cfg.audio_path) = true
  · simp [h1]
  · by_cases h2 : cfg.playlist = []
    · simp [h1, h2]
    · have hlen : cfg.playlist.length ≠ 0 := by
        intro h
        exact h2 (List.length_eq_zero.mp h)
      have hidx := emod_toNat_lt cfg.playlist_rotation cfg.playlist.length hlen
      simp [h1, h2, hidx]

/-- `_resolve_audio` never raises: the manual and empty-playlist branches
return early and the rotation index is always within the playlist. -/
theorem resolve_audioE_never_raises (cfg : SchedulerConfig)
    (day_cfg : DaySchedule) (e : String) :
    resolve_audioE cfg day_cfg ≠ .error e := by
  rw [resolve_audioE_eq]
  intro h
  exact Except.noConfusion h

/-! Claims C4 and C9: manual-mode resolution and empty-playlist fallback. -/

/-- Claim C4 is false as stated: a slot with `auto_assign = false` and no
manual audio set does not get `manual_audio_ref` (`None`) back when the
playlist is non-empty — `_resolve_audio` falls through to the playlist. -/
theorem c4_counterexample :
    c4xDay.auto_assign = false ∧ c4xDay.audio_path = none ∧
    resolve_audio c4xCfg c4xDay ≠ c4xDay.audio_path := by
  refine ⟨rfl, rfl, ?_⟩
  decide

/-- Claim C4 (amended): when `auto_assign` is false, `_resolve_audio`
returns the manual ref if it is set (non-empty); when the manual ref is
unset/empty it returns the manual ref only for an empty playlist, and
otherwise falls back to the playlist entry at the rotation cursor. -/
theorem c4_manual_resolution (cfg : SchedulerConfig) (day_cfg : DaySchedule)
    (hA : day_cfg.auto_assign = false) :
    (pyTruthy day_cfg.audio_path = true →
      resolve_audioE cfg day_cfg = .ok day_cfg.audio_path) ∧
    (pyTruthy day_cfg.audio_path = false → cfg.playlist = [] →
      resolve_audioE cfg day_cfg = .ok day_cfg.audio_path) ∧
    (pyTruthy day_cfg.audio_path = false → cfg.playlist ≠ [] →
      resolve_audioE cfg day_cfg = .ok (some (cfg.playlist.getD
        (cfg.playlist_rotation % (cfg.playlist.length : Int)).toNat ""))) := by
  refine ⟨?_, ?_, ?_⟩
  · intro hT
    simp [resolve_audioE, hA, hT]
  · intro hT hE
    simp [resolve_audioE, hA, hT, hE]
  · intro hT hE
    have hlen : cfg.playlist.length ≠ 0 := by
      intro h
      exact hE (List.length_eq_zero.mp h)
    have hidx := emod_toNat_lt cfg.playlist_rotation cfg.playlist.length hlen
    simp [resolve_audioE, hA, hT, hE, hidx, List.getD_eq_getElem]

/-- Witness for C4 (amended) at a concrete manual slot with a manual ref. -/
theorem c4_manual_resolution_witness :
    resolve_audioE c4wCfg c4wDay = .ok (some "m.mp3") :=
  (c4_manual_resolution c4wCfg c4wDay rfl).1 rfl

/-- Claim C9: with an empty playlist and `auto_assign = true`,
`_resolve_audio` returns the slot's manual ref (possibly `None`) and never
raises. -/
theorem c9_empty_playlist_fallback (cfg : SchedulerConfig)
    (day_cfg : DaySchedule) (hp : cfg.playlist = [])
    (ha : day_cfg.auto_assign = true) :
    resolve_audioE cfg day_cfg = .ok day_cfg.audio_path := by
  simp [resolve_audioE, hp, ha]

/-- Witness for C9 at a concrete empty-playlist configuration. -/
theorem c9_empty_playlist_fallback_witness :
    resolve_audioE c9wCfg c9wDay = .ok (some "fallback.mp3") :=
  c9_empty_playlist_fallback c9wCfg c9wDay rfl rfl

/-! Claim C2: the holiday predicate. -/

theorem rangeMatches_iff (d : Date) (rng : HolidayRange) :
    rangeMatches d rng = true ↔
      ∃ s e : Date, rng.rstart.bind parsePyDate = some s ∧
        rng.rend.bind parsePyDate = some e ∧
        dateLe s d = true ∧ dateLe d e = true := by
  unfold rangeMatches
  cases hs : rng.rstart.bind parsePyDate <;>
    cases he : rng.rend.bind parsePyDate <;>
    simp [hs, he]

/-- Claim C2 is false as stated: `is_holiday` never consults the
`holidays_enabled` flag, so with the flag off, a Saturday under
`auto_skip_weekends` is still reported as a holiday (the flag is applied
by the caller `is_day_eligible` instead). -/
theorem c2_counterexample :
    c2xCfg.holidays_enabled = false ∧ is_holiday c2xCfg c2xDate = true := by
  refine ⟨rfl, ?_⟩
  decide

/-- Claim C2 (amended): `is_holiday(date)` is true iff
`auto_skip_weekends` is set and the weekday is Saturday/Sunday, or the
date's ISO string is in `holidays`, or the date lies in some parseable
stored inclusive range — independently of the `holidays_enabled` flag,
which only the caller `is_day_eligible` applies. -/
theorem c2_is_holiday_spec (cfg : SchedulerConfig) (d : Date) :
    is_holiday cfg d = true ↔
      (cfg.auto_skip_weekends = true ∧ 5 ≤ d.weekday) ∨
      d.iso ∈ cfg.holidays ∨
      ∃ rng ∈ cfg.holiday_ranges, ∃ s e : Date,
        rng.rstart.bind parsePyDate = some s ∧
        rng.rend.bind parsePyDate = some e ∧
        dateLe s d = true ∧ dateLe d e = true := by
  by_cases h1 : (cfg.auto_skip_weekends = true ∧ 5 ≤ d.weekday)
  · unfold is_holiday
    rw [if_pos h1]
    exact iff_of_true rfl (Or.inl h1)
  · by_cases h2 : d.iso ∈ cfg.holidays
    · unfold is_holiday
      rw [if_neg h1, if_pos h2]
      exact iff_of_true rfl (Or.inr (Or.inl h2))
    · unfold is_holiday
      rw [if_neg h1, if_neg h2, List.any_eq_true]
      constructor
      · rintro ⟨rng, hmem, hmatch⟩
        exact Or.inr (Or.inr ⟨rng, hmem, (rangeMatches_iff d rng).mp hmatch⟩)
      · rintro (h | h | ⟨rng, hmem, hex⟩)
        · exact absurd h h1
        · exact absurd h h2
        · exact ⟨rng, hmem, (rangeMatches_iff d rng).mpr hex⟩

/-! Claim C10: invalid day keys at the preview interface. -/

/-- Claim C10: for any `target_day` outside `mon..sun`,
`predict_playlist_for_day` returns `None` without raising. -/
theorem c10_invalid_day_key (cfg : SchedulerConfig) (now : DateTime)
    (target_day : String) (h : target_day ∉ dayKeys) :
    predict_playlist_for_day cfg now target_day = .ok none := by
  simp [predict_playlist_for_day, h]

/-- Witness for C10 at the key `"xyz"`. -/
theorem c10_invalid_day_key_witness :
    predict_playlist_for_day c10wCfg mondayMidnight "xyz" = .ok none :=
  c10_invalid_day_key c10wCfg mondayMidnight "xyz" (by decide)

/-! Claim C7: projections mutate no persisted state. -/

/-- Claim C7: any number of `compute_upcoming_runs` /
`predict_playlist_for_day` calls leaves the persisted configuration —
rotation cursor, day slots (including `last_ran`) and every other field —
unchanged; the rotation index the projection advances is local to the
call. -/
theorem c7_projection_side_effect_free (n : Nat) (cfg : SchedulerConfig)
    (now : DateTime) (horizon_days : Nat) (limit : Option Nat)
    (target_day : String) :
    (fun c => (projectionCall now horizon_days limit c).1)^[n] cfg = cfg ∧
    (fun c => (predictCall now target_day c).1)^[n] cfg = cfg ∧
    (projectionCall now horizon_days limit cfg).1.playlist_rotation =
      cfg.playlist_rotation ∧
    (projectionCall now horizon_days limit cfg).1.days = cfg.days :=
  ⟨Function.iterate_fixed rfl n, Function.iterate_fixed rfl n, rfl, rfl⟩

/-! Claim C5: malformed / out-of-range time strings. -/

/-- Claim C5 is violated by the code: an eligible slot with the
out-of-range time `"25:00"` makes `compute_upcoming_runs` raise
`ValueError` (the `replace` call sits outside the `try`), and an eligible
slot with a non-numeric time makes `_check_trigger` raise (it has no
`try` at all); neither path skips the slot. -/
theorem c5_malformed_time_raises :
    compute_upcoming_runs c5Cfg mondayMidnight 7 none =
      .error replaceValueError ∧
    check_trigger c5CfgB mondayMidnight = .error parseValueError :=
  ⟨rfl, rfl⟩

/-! Claim C6: the bounded trigger window. -/

/-- Claim C6: `_check_trigger` emits a fire event only when today's slot
is eligible and `now` lies within the bounded window after the configured
fire time, `0 ≤ now - target ≤ 30` seconds — never before the target, and
never after the window has passed. -/
theorem c6_trigger_window (cfg : SchedulerConfig) (now : DateTime)
    (ev : FireEvent) (h : check_trigger cfg now = .ok (some ev)) :
    is_day_eligible cfg
      (cfg.days.byKey (dayKeys.getD now.date.weekday "")) now.date = true ∧
    ∃ hh mm : Int,
      parseTimeHM (cfg.days.byKey (dayKeys.getD now.date.weekday "")).time =
        some (hh, mm) ∧
      0 ≤ (now.sec : Int) - (hh * 3600 + mm * 60) ∧
      (now.sec : Int) - (hh * 3600 + mm * 60) ≤ 30 := by
  simp only [check_trigger] at h
  split at h
  · exact absurd h (by simp)
  · rename_i hel
    rw [not_not] at hel
    refine ⟨hel, ?_⟩
    split at h
    · exact absurd h (by simp)
    · rename_i hh mm hparse
      split at h
      · exact absurd h (by simp)
      · rename_i target hrep
        split at h
        · rename_i hw
          unfold replaceTime at hrep
          split at hrep
          · rename_i hg
            injection hrep with hrep
            subst hrep
            dsimp only at hw
            refine ⟨hh, mm, hparse, ?_, ?_⟩
            · have h1 := hw.1
              omega
            · have h2 := hw.2
              omega
          · exact absurd hrep (by simp)
        · exact absurd h (by simp)

/-- Witness for C6: a Monday slot fires at 09:00:10 for its 09:00 target. -/
theorem c6_trigger_window_witness :
    is_day_eligible c6wCfg
      (c6wCfg.days.byKey (dayKeys.getD c6wNow.date.weekday "")) c6wNow.date = true ∧
    ∃ hh mm : Int,
      parseTimeHM (c6wCfg.days.byKey (dayKeys.getD c6wNow.date.weekday "")).time =
        some (hh, mm) ∧
      0 ≤ (c6wNow.sec : Int) - (hh * 3600 + mm * 60) ∧
      (c6wNow.sec : Int) - (hh * 3600 + mm * 60) ≤ 30 :=
  c6_trigger_window c6wCfg c6wNow ⟨"mon", "a", true, true⟩ rfl

/-! Claim C8: rotation arithmetic. -/

theorem bump_iterate (K : Nat) :
    ∀ (cfg : SchedulerConfig) (c : Int),
      cfg.playlist.length ≠ 0 → 0 ≤ c → c < cfg.playlist.length →
      cfg.playlist_rotation = c →
      (bump_rotation^[K] cfg).playlist_rotation =
        (c + K) % (cfg.playlist.length : Int) ∧
      (bump_rotation^[K] cfg).playlist = cfg.playlist := by
  induction K with
  | zero =>
    intro cfg c hn h0 hlt hc
    refine ⟨?_, rfl⟩
    simp only [Function.iterate_zero, id_eq, Nat.cast_zero, add_zero, hc]
    exact (Int.emod_eq_of_lt h0 hlt).symm
  | succ k ih =>
    intro cfg c hn h0 hlt hc
    rw [Function.iterate_succ_apply]
    have hpl : (bump_rotation cfg).playlist = cfg.playlist := rfl
    have hnpos : (0 : Int) < cfg.playlist.length := by
      exact_mod_cast Nat.pos_of_ne_zero hn
    have hmax : max (1 : Int) (cfg.playlist.length : Int) =
        (cfg.playlist.length : Int) := max_eq_right hnpos
    have hrot : (bump_rotation cfg).playlist_rotation =
        (c + 1) % (cfg.playlist.length : Int) := by
      simp [bump_rotation, hc, hmax]
    have h0n : 0 ≤ (c + 1) % (cfg.playlist.length : Int) :=
      Int.emod_nonneg _ (ne_of_gt hnpos)
    have hltn : (c + 1) % (cfg.playlist.length : Int) < cfg.playlist.length :=
      Int.emod_lt_of_pos _ hnpos
    obtain ⟨ha, hb⟩ := ih (bump_rotation cfg) ((c + 1) % (cfg.playlist.length : Int))
      (by rw [hpl]; exact hn) h0n (by rw [hpl]; exact hltn) hrot
    rw [hpl] at ha
    refine ⟨?_, by rw [hb, hpl]⟩
    rw [ha]
    rw [Int.add_emod ((c + 1) % (cfg.playlist.length : Int)) k,
      Int.emod_emod_of_dvd _ dvd_rfl, ← Int.add_emod]
    congr 1
    push_cast
    ring

/-- Claim C8: with a fixed configuration, N resolve calls without any
cursor consumption all return the same audio ref, and K cursor advances
from a canonical cursor `c` with playlist length `n > 0` leave the cursor
at `(c + K) mod n` (each advance computing
`(cursor + 1) mod max(1, len(items))`). -/
theorem c8_rotation_arithmetic (cfg : SchedulerConfig) (day_cfg : DaySchedule)
    (K : Nat) (c : Int) (hn : cfg.playlist.length ≠ 0) (h0 : 0 ≤ c)
    (hlt : c < cfg.playlist.length) (hc : cfg.playlist_rotation = c) :
    (∀ N : Nat, (List.range N).map (fun _ => resolve_audioE cfg day_cfg) =
      List.replicate N (resolve_audioE cfg day_cfg)) ∧
    (bump_rotation^[K] cfg).playlist_rotation =
      (c + K) % (cfg.playlist.length : Int) := by
  refine ⟨?_, (bump_iterate K cfg c hn h0 hlt hc).1⟩
  intro N
  induction N with
  | zero => rfl
  | succ k ih =>
    rw [List.range_succ, List.map_append, ih, List.map_cons, List.map_nil,
      ← List.replicate_succ']

/-- Witness for C8: three tracks, cursor 1, five advances end at cursor 0. -/
theorem c8_rotation_arithmetic_witness :
    ((List.range 4).map (fun _ => resolve_audioE c8wCfg c8wDay) =
      List.replicate 4 (resolve_audioE c8wCfg c8wDay)) ∧
    (bump_rotation^[5] c8wCfg).playlist_rotation =
      ((1 : Int) + (5 : Nat)) % (c8wCfg.playlist.length : Int) := by
  have h := c8_rotation_arithmetic c8wCfg c8wDay 5 1 (by decide) (by decide)
    (by decide) rfl
  exact ⟨h.1 4, h.2⟩

/-! Claim C3: the eligibility predicate and firing idempotence. -/

theorem digitChar_bounded_inj :
    ∀ x, x < 10 → ∀ y, y < 10 → digitChar x = digitChar y → x = y := by
  decide

theorem digitChar_inj {x y : Nat} (h : digitChar x = digitChar y) :
    x % 10 = y % 10 := by
  have hx : digitChar (x % 10) = digitChar x := by
    unfold digitChar
    rw [Nat.mod_mod_of_dvd x dvd_rfl]
  have hy : digitChar (y % 10) = digitChar y := by
    unfold digitChar
    rw [Nat.mod_mod_of_dvd y dvd_rfl]
  exact digitChar_bounded_inj (x % 10) (Nat.mod_lt x (by omega))
    (y % 10) (Nat.mod_lt y (by omega)) (by rw [hx, hy, h])

/-- Distinct dates in the ranges `datetime.date` guarantees have distinct
`isoformat` strings. -/
theorem iso_inj {a b : Date} (ha1 : a.year ≤ 9999) (hb1 : b.year ≤ 9999)
    (ha2 : a.month ≤ 99) (hb2 : b.month ≤ 99) (ha3 : a.day ≤ 99)
    (hb3 : b.day ≤ 99) (h : a.iso = b.iso) : a = b := by
  have hl : pad4 a.year ++ '-' :: (pad2 a.month ++ '-' :: pad2 a.day) =
      pad4 b.year ++ '-' :: (pad2 b.month ++ '-' :: pad2 b.day) :=
    congrArg String.data h
  simp only [pad4, pad2, List.cons_append, List.nil_append,
    List.cons.injEq, and_true] at hl
  obtain ⟨e1, e2, e3, e4, -, e5, e6, -, e7, e8⟩ := hl
  have g1 := digitChar_inj e1
  have g2 := digitChar_inj e2
  have g3 := digitChar_inj e3
  have g4 := digitChar_inj e4
  have g5 := digitChar_inj e5
  have g6 := digitChar_inj e6
  have g7 := digitChar_inj e7
  have g8 := digitChar_inj e8
  have hy : a.year = b.year := by omega
  have hm : a.month = b.month := by omega
  have hd : a.day = b.day := by omega
  cases a
  cases b
  simp_all

theorem dateLt_ne {a b : Date} (h : dateLt a b = true) : a ≠ b := by
  intro he
  subst he
  simp [dateLt] at h

/-- Claim C3: `is_day_eligible` is false exactly on disabled slots,
holiday-blocked dates and already-fired dates; after `mark_fired(d)` the
slot is ineligible on `d` itself, and eligible again on any later date
(in `datetime.date`'s ranges) whose other conditions permit, even if the
weekday repeats. -/
theorem c3_eligibility (cfg : SchedulerConfig) (day_cfg : DaySchedule)
    (d dlater : Date) :
    (is_day_eligible cfg day_cfg d = true ↔
      (day_cfg.enabled = true ∧
       ¬(cfg.holidays_enabled = true ∧ is_holiday cfg d = true) ∧
       day_cfg.last_ran ≠ some d.iso)) ∧
    is_day_eligible cfg (day_cfg.mark_fired d) d = false ∧
    (d.year ≤ 9999 → dlater.year ≤ 9999 → d.month ≤ 99 → dlater.month ≤ 99 →
     d.day ≤ 99 → dlater.day ≤ 99 → dateLt d dlater = true →
     day_cfg.enabled = true →
     ¬(cfg.holidays_enabled = true ∧ is_holiday cfg dlater = true) →
     is_day_eligible cfg (day_cfg.mark_fired d) dlater = true) := by
  refine ⟨?_, ?_, ?_⟩
  · unfold is_day_eligible
    cases hE : day_cfg.enabled <;>
      cases hCE : cfg.holidays_enabled <;>
      cases hIH : is_holiday cfg d <;>
      by_cases hL : day_cfg.last_ran = some d.iso <;>
      simp [hE, hCE, hIH, hL]
  · unfold is_day_eligible DaySchedule.mark_fired
    split
    · rfl
    · split
      · rfl
      · split
        · rfl
        · rename_i hne
          exact absurd rfl hne
  · intro hy hy2 hm hm2 hd hd2 hlt hen hnohol
    have hne : d ≠ dlater := dateLt_ne hlt
    have hiso : d.iso ≠ dlater.iso := fun he =>
      hne (iso_inj hy hy2 hm hm2 hd hd2 he)
    have hH : (cfg.holidays_enabled && is_holiday cfg dlater) = false := by
      cases hce : cfg.holidays_enabled
      · rfl
      · cases hih : is_holiday cfg dlater
        · rfl
        · exact absurd ⟨hce, hih⟩ hnohol
    simp [is_day_eligible, DaySchedule.mark_fired, hen, hH, hiso]

/-- Witness for C3: marking Monday 2024-01-01 fired blocks that date but
not Monday 2024-01-08. -/
theorem c3_eligibility_witness :
    is_day_eligible c3wCfg (c3wDay.mark_fired ⟨2024, 1, 1⟩) ⟨2024, 1, 1⟩ = false ∧
    is_day_eligible c3wCfg (c3wDay.mark_fired ⟨2024, 1, 1⟩) ⟨2024, 1, 8⟩ = true := by
  have h := c3_eligibility c3wCfg c3wDay ⟨2024, 1, 1⟩ ⟨2024, 1, 8⟩
  refine ⟨h.2.1, ?_⟩
  exact h.2.2 (by decide) (by decide) (by decide) (by decide) (by decide)
    (by decide) (by decide) rfl (by decide)

/-! Claim C1: projection/firing consistency. -/

theorem length_ne_zero_of_ne_nil {l : List String} (h : l ≠ []) :
    l.length ≠ 0 :=
  fun h0 => h (List.length_eq_zero.mp h0)

theorem resolve_audio_of_E {cfg : SchedulerConfig} {day_cfg : DaySchedule}
    {a : Option String} (h : resolve_audioE cfg day_cfg = .ok a) :
    resolve_audio cfg day_cfg = a := by
  unfold resolve_audio
  rw [h]

theorem resolve_audioE_auto (cfg : SchedulerConfig) (day_cfg : DaySchedule)
    (hnp : cfg.playlist ≠ []) (ha : day_cfg.auto_assign = true) :
    resolve_audioE cfg day_cfg = .ok (some (cfg.playlist.getD
      (cfg.playlist_rotation % (cfg.playlist.length : Int)).toNat "")) := by
  have hidx := emod_toNat_lt cfg.playlist_rotation cfg.playlist.length
    (length_ne_zero_of_ne_nil hnp)
  simp [resolve_audioE, ha, hnp, hidx, List.getD_eq_getElem]

theorem resolve_audioE_manual (cfg : SchedulerConfig) (day_cfg : DaySchedule)
    (ha : day_cfg.auto_assign = false) (ht : pyTruthy day_cfg.audio_path = true) :
    resolve_audioE cfg day_cfg = .ok day_cfg.audio_path := by
  simp [resolve_audioE, ha, ht]

theorem bumps_auto (cfg : SchedulerConfig) (day_cfg : DaySchedule)
    (hnp : cfg.playlist ≠ []) (ha : day_cfg.auto_assign = true) :
    resolve_audio_bumps cfg day_cfg = true := by
  simp [resolve_audio_bumps, ha, hnp]

theorem bumps_manual_truthy (cfg : SchedulerConfig) (day_cfg : DaySchedule)
    (ha : day_cfg.auto_assign = false) (ht : pyTruthy day_cfg.audio_path = true) :
    resolve_audio_bumps cfg day_cfg = false := by
  simp [resolve_audio_bumps, ha, ht]

theorem toNat_emod_succ (c : Int) (n : Nat) (h0 : 0 ≤ c) :
    ((c + 1) % (n : Int)).toNat = (c.toNat + 1) % n := by
  obtain ⟨m, rfl⟩ := Int.eq_ofNat_of_zero_le h0
  norm_cast

/-- Cursor congruence of the fire path: firing a run list from two cursors
that agree modulo the playlist length produces identical results. -/
theorem fireSimRuns_rot_congr (runs : List UpcomingRun) :
    ∀ (cfg : SchedulerConfig) (c1 c2 : Int), cfg.playlist ≠ [] →
      c1 % (cfg.playlist.length : Int) = c2 % (cfg.playlist.length : Int) →
      fireSimRuns { cfg with playlist_rotation := c1 } runs =
        fireSimRuns { cfg with playlist_rotation := c2 } runs := by
  induction runs with
  | nil =>
    intro cfg c1 c2 _ _
    rfl
  | cons r t ih =>
    intro cfg c1 c2 hnp hmod
    have hnpos : (0 : Int) < cfg.playlist.length := by
      exact_mod_cast Nat.pos_of_ne_zero (length_ne_zero_of_ne_nil hnp)
    have hmaxI : max (1 : Int) (cfg.playlist.length : Int) =
        (cfg.playlist.length : Int) := max_eq_right hnpos
    have hres : resolve_audio { cfg with playlist_rotation := c1 }
          (cfg.days.byKey r.day_key) =
        resolve_audio { cfg with playlist_rotation := c2 }
          (cfg.days.byKey r.day_key) := by
      unfold resolve_audio resolve_audioE
      dsimp only
      rw [hmod]
    have hbump : resolve_audio_bumps { cfg with playlist_rotation := c1 }
          (cfg.days.byKey r.day_key) =
        resolve_audio_bumps { cfg with playlist_rotation := c2 }
          (cfg.days.byKey r.day_key) := rfl
    simp only [fireSimRuns]
    refine congrArg₂ List.cons (congrArg _ hres) ?_
    rw [hbump]
    cases hb : resolve_audio_bumps { cfg with playlist_rotation := c2 }
        (cfg.days.byKey r.day_key) with
    | false => exact ih cfg c1 c2 hnp hmod
    | true =>
      have hstep : ((c1 + 1) % max 1 (cfg.playlist.length : Int)) %
            (cfg.playlist.length : Int) =
          ((c2 + 1) % max 1 (cfg.playlist.length : Int)) %
            (cfg.playlist.length : Int) := by
        rw [hmaxI, Int.emod_emod_of_dvd _ dvd_rfl,
          Int.emod_emod_of_dvd _ dvd_rfl, Int.add_emod c1 1, hmod,
          ← Int.add_emod]
      exact ih cfg ((c1 + 1) % max 1 (cfg.playlist.length : Int))
        ((c2 + 1) % max 1 (cfg.playlist.length : Int)) hnp hstep

/-- Dropping a manual run from the projected auto refs. -/
theorem projected_cons_manual (r : UpcomingRun) (t : List UpcomingRun)
    (h : r.auto_assign = false) :
    projectedAutoRefs (r :: t) = projectedAutoRefs t := by
  simp [projectedAutoRefs, h]

/-- Peeling an auto run off the projected auto refs. -/
theorem projected_cons_auto (r : UpcomingRun) (t : List UpcomingRun)
    (h : r.auto_assign = true) :
    projectedAutoRefs (r :: t) = r.audio_path :: projectedAutoRefs t := by
  simp [projectedAutoRefs, h]

/-- Firing a manual run with a truthy manual ref consumes nothing. -/
theorem fired_cons_manual (cfg : SchedulerConfig) (r : UpcomingRun)
    (t : List UpcomingRun) (hr : r.auto_assign = false)
    (hslot : (cfg.days.byKey r.day_key).auto_assign = false)
    (ht : pyTruthy ((cfg.days.byKey r.day_key).audio_path) = true) :
    firedAutoRefs cfg (r :: t) = firedAutoRefs cfg t := by
  simp only [firedAutoRefs, fireSimRuns]
  rw [bumps_manual_truthy cfg _ hslot ht]
  simp [hr]

/-- Firing an auto run consumes the cursor entry and bumps the cursor. -/
theorem fired_cons_auto (cfg : SchedulerConfig) (r : UpcomingRun)
    (t : List UpcomingRun) (hr : r.auto_assign = true)
    (hslot : (cfg.days.byKey r.day_key).auto_assign = true)
    (hnp : cfg.playlist ≠ []) :
    firedAutoRefs cfg (r :: t) =
      some (cfg.playlist.getD
          (cfg.playlist_rotation % (cfg.playlist.length : Int)).toNat "") ::
        firedAutoRefs (bump_rotation cfg) t := by
  simp only [firedAutoRefs, fireSimRuns]
  rw [bumps_auto cfg _ hnp hslot,
    resolve_audio_of_E (resolve_audioE_auto cfg _ hnp hslot)]
  simp [hr]

/-- Key invariant: running the projection loop with local index `c.toNat`
produces, on its auto-assigned runs, exactly the audio refs the fire path
produces from cursor `c` — provided every projected manual run has a
truthy manual ref (otherwise `_resolve_audio` consumes a playlist slot
the projection did not account for). -/
theorem upcomingAux_fire_consistency (cfg : SchedulerConfig) (now : DateTime)
    (limit : Option Nat) (hnp : cfg.playlist ≠ []) :
    ∀ (fuel offset : Nat) (c : Int) (runs0 R : List UpcomingRun),
      0 ≤ c → c < cfg.playlist.length →
      upcomingAux cfg now limit fuel offset c.toNat runs0 = .ok R →
      ∃ nw, R = runs0 ++ nw ∧
        ((∀ r ∈ nw, r.auto_assign = false →
            pyTruthy ((cfg.days.byKey r.day_key).audio_path) = true) →
          projectedAutoRefs nw =
            firedAutoRefs { cfg with playlist_rotation := c } nw) := by
  intro fuel
  induction fuel with
  | zero =>
    intro offset c runs0 R h0 hlt h
    simp only [upcomingAux] at h
    injection h with h
    subst h
    exact ⟨[], by simp, fun _ => rfl⟩
  | succ k ih =>
    intro offset c runs0 R h0 hlt h
    have hlen : cfg.playlist.length ≠ 0 := length_ne_zero_of_ne_nil hnp
    have hnpos : (0 : Int) < cfg.playlist.length := by
      exact_mod_cast Nat.pos_of_ne_zero hlen
    have hmaxI : max (1 : Int) (cfg.playlist.length : Int) =
        (cfg.playlist.length : Int) := max_eq_right hnpos
    have hcmod : c % (cfg.playlist.length : Int) = c := Int.emod_eq_of_lt h0 hlt
    have hctn : c.toNat < cfg.playlist.length := by omega
    simp only [upcomingAux] at h
    split at h
    · exact ih (offset + 1) c runs0 R h0 hlt h
    · rename_i day_cfg hlk
      split at h
      · exact ih (offset + 1) c runs0 R h0 hlt h
      · rename_i hel
        split at h
        · exact ih (offset + 1) c runs0 R h0 hlt h
        · rename_i hh mm hparse
          split at h
          · exact absurd h (by simp)
          · rename_i scheduled hrep
            split at h
            · exact ih (offset + 1) c runs0 R h0 hlt h
            · rename_i hsched
              have hbyKey : cfg.days.byKey
                  (dayKeys.getD ((now.addDays offset).date.weekday) "") =
                    day_cfg := byKey_of_lookup hlk
              cases hauto : day_cfg.auto_assign
              · -- manual slot: local index and cursor both stay put
                have hcond : ¬(day_cfg.auto_assign = true ∧
                    cfg.playlist.length ≠ 0) := by simp [hauto]
                rw [if_neg hcond, if_neg hcond, if_neg hcond] at h
                set runHead : UpcomingRun :=
                  { _when := scheduled,
                    day_key := dayKeys.getD
                      ((now.addDays offset).date.weekday) "",
                    audio_path := if pyTruthy day_cfg.audio_path = true
                      then day_cfg.audio_path else none,
                    auto_assign := day_cfg.auto_assign,
                    remote_allowed :=
                      cfg.enable_remote_shutdown && day_cfg.allow_remote,
                    local_allowed := cfg.enable_local_shutdown &&
                      day_cfg.allow_local_shutdown } with hrunHead
                have hrA : runHead.auto_assign = false := hauto
                have hrSlot : (cfg.days.byKey runHead.day_key).auto_assign
                    = false := by rw [hbyKey]; exact hauto
                split at h
                · rename_i l
                  split at h
                  · -- limit reached: the new suffix is the single run
                    injection h with h
                    subst h
                    refine ⟨[runHead], rfl, ?_⟩
                    intro hman
                    have ht := hman runHead (List.mem_cons_self _ _) hrA
                    rw [projected_cons_manual runHead [] hrA,
                      fired_cons_manual { cfg with playlist_rotation := c }
                        runHead [] hrA hrSlot ht]
                    rfl
                  · obtain ⟨nw, hR, himpl⟩ := ih (offset + 1) c _ R h0 hlt h
                    refine ⟨runHead :: nw,
                      by rw [hR, List.append_assoc, List.singleton_append], ?_⟩
                    intro hman
                    have ht := hman runHead (List.mem_cons_self _ _) hrA
                    rw [projected_cons_manual runHead nw hrA,
                      fired_cons_manual { cfg with playlist_rotation := c }
                        runHead nw hrA hrSlot ht]
                    exact himpl fun r hr hra =>
                      hman r (List.mem_cons_of_mem _ hr) hra
                · obtain ⟨nw, hR, himpl⟩ := ih (offset + 1) c _ R h0 hlt h
                  refine ⟨runHead :: nw,
                    by rw [hR, List.append_assoc, List.singleton_append], ?_⟩
                  intro hman
                  have ht := hman runHead (List.mem_cons_self _ _) hrA
                  rw [projected_cons_manual runHead nw hrA,
                    fired_cons_manual { cfg with playlist_rotation := c }
                      runHead nw hrA hrSlot ht]
                  exact himpl fun r hr hra =>
                    hman r (List.mem_cons_of_mem _ hr) hra
              · -- auto slot: both sides consume the cursor entry
                have hcond : (day_cfg.auto_assign = true ∧
                    cfg.playlist.length ≠ 0) := ⟨hauto, hlen⟩
                rw [if_pos hcond, if_pos hcond] at h
                rw [← toNat_emod_succ c cfg.playlist.length h0] at h
                set runHead : UpcomingRun :=
                  { _when := scheduled,
                    day_key := dayKeys.getD
                      ((now.addDays offset).date.weekday) "",
                    audio_path := some (cfg.playlist.getD
                      (c.toNat % cfg.playlist.length) ""),
                    auto_assign := day_cfg.auto_assign,
                    remote_allowed :=
                      cfg.enable_remote_shutdown && day_cfg.allow_remote,
                    local_allowed := cfg.enable_local_shutdown &&
                      day_cfg.allow_local_shutdown } with hrunHead
                have hrA : runHead.auto_assign = true := hauto
                have hrSlot : (cfg.days.byKey runHead.day_key).auto_assign
                    = true := by rw [hbyKey]; exact hauto
                have h0n : 0 ≤ (c + 1) % (cfg.playlist.length : Int) :=
                  Int.emod_nonneg _ (ne_of_gt hnpos)
                have hltn : (c + 1) % (cfg.playlist.length : Int) <
                    cfg.playlist.length := Int.emod_lt_of_pos _ hnpos
                have hbumpc : bump_rotation
                    { cfg with playlist_rotation := c } =
                    { cfg with playlist_rotation :=
                        (c + 1) % (cfg.playlist.length : Int) } := by
                  rw [show bump_rotation { cfg with playlist_rotation := c } =
                    { cfg with playlist_rotation :=
                        (c + 1) % max 1 (cfg.playlist.length : Int) } from rfl,
                    hmaxI]
                have hhead : runHead.audio_path =
                    some (cfg.playlist.getD
                      ((c % (cfg.playlist.length : Int)).toNat) "") := by
                  rw [hcmod]
                  show some (cfg.playlist.getD
                    (c.toNat % cfg.playlist.length) "") = _
                  rw [Nat.mod_eq_of_lt hctn]
                split at h
                · rename_i l
                  split at h
                  · injection h with h
                    subst h
                    refine ⟨[runHead], rfl, ?_⟩
                    intro hman
                    rw [projected_cons_auto runHead [] hrA,
                      fired_cons_auto { cfg with playlist_rotation := c }
                        runHead [] hrA hrSlot hnp]
                    exact congrArg₂ List.cons hhead rfl
                  · obtain ⟨nw, hR, himpl⟩ :=
                      ih (offset + 1) ((c + 1) % (cfg.playlist.length : Int))
                        _ R h0n hltn h
                    refine ⟨runHead :: nw,
                      by rw [hR, List.append_assoc, List.singleton_append], ?_⟩
                    intro hman
                    rw [projected_cons_auto runHead nw hrA,
                      fired_cons_auto { cfg with playlist_rotation := c }
                        runHead nw hrA hrSlot hnp, hbumpc]
                    exact congrArg₂ List.cons hhead
                      (himpl fun r hr hra =>
                        hman r (List.mem_cons_of_mem _ hr) hra)
                · obtain ⟨nw, hR, himpl⟩ :=
                    ih (offset + 1) ((c + 1) % (cfg.playlist.length : Int))
                      _ R h0n hltn h
                  refine ⟨runHead :: nw,
                    by rw [hR, List.append_assoc, List.singleton_append], ?_⟩
                  intro hman
                  rw [projected_cons_auto runHead nw hrA,
                    fired_cons_auto { cfg with playlist_rotation := c }
                      runHead nw hrA hrSlot hnp, hbumpc]
                  exact congrArg₂ List.cons hhead
                    (himpl fun r hr hra =>
                      hman r (List.mem_cons_of_mem _ hr) hra)

/-- Claim C1 is false as stated: with playlist `["a","b"]`, a manual
Monday slot with no manual ref and an auto Tuesday slot, the projection
attaches `"a"` to the auto run, but actually firing the two projected runs
makes Monday's firing consume `"a"` (the manual-without-ref fallback of
`_resolve_audio` bumps the cursor), so the auto firing plays `"b"`. -/
theorem c1_counterexample :
    (compute_upcoming_runs c1xCfg mondayMidnight 7 (some 2)).toOption.map
      projectedAutoRefs ≠
    (compute_upcoming_runs c1xCfg mondayMidnight 7 (some 2)).toOption.map
      (fun runs => firedAutoRefs c1xCfg runs) := by
  decide

/-- Claim C1 (amended): for every configuration with a non-empty playlist
in which every projected run is auto-assigned or has a truthy manual
audio ref, the audio refs the projection attaches to its auto-assigned
runs equal the refs `_resolve_audio` (with its per-firing cursor bump)
produces at the auto-assigned firings when the projected runs fire in
chronological order. -/
theorem c1_projection_firing_consistency (cfg : SchedulerConfig)
    (now : DateTime) (horizon_days : Nat) (limit : Option Nat)
    (runs : List UpcomingRun) (hnp : cfg.playlist ≠ [])
    (hok : compute_upcoming_runs cfg now horizon_days limit = .ok runs)
    (hman : ∀ r ∈ runs, r.auto_assign = false →
      pyTruthy ((cfg.days.byKey r.day_key).audio_path) = true) :
    projectedAutoRefs runs = firedAutoRefs cfg runs := by
  unfold compute_upcoming_runs at hok
  have hlen : cfg.playlist.length ≠ 0 := length_ne_zero_of_ne_nil hnp
  have hnpos : (0 : Int) < cfg.playlist.length := by
    exact_mod_cast Nat.pos_of_ne_zero hlen
  have hmaxI : max (1 : Int) (cfg.playlist.length : Int) =
      (cfg.playlist.length : Int) := max_eq_right hnpos
  have hstart : startRotation cfg =
      (cfg.playlist_rotation % (cfg.playlist.length : Int)).toNat := by
    rw [startRotation, if_pos hlen, hmaxI]
  rw [hstart] at hok
  have h0 : 0 ≤ cfg.playlist_rotation % (cfg.playlist.length : Int) :=
    Int.emod_nonneg _ (ne_of_gt hnpos)
  have hlt : cfg.playlist_rotation % (cfg.playlist.length : Int) <
      cfg.playlist.length := Int.emod_lt_of_pos _ hnpos
  obtain ⟨nw, hR, himpl⟩ := upcomingAux_fire_consistency cfg now limit hnp
    horizon_days 0 (cfg.playlist_rotation % (cfg.playlist.length : Int))
    [] runs h0 hlt hok
  rw [List.nil_append] at hR
  subst hR
  rw [himpl hman]
  unfold firedAutoRefs
  rw [fireSimRuns_rot_congr runs cfg
    (cfg.playlist_rotation % (cfg.playlist.length : Int))
    cfg.playlist_rotation hnp (Int.emod_emod_of_dvd _ dvd_rfl)]

/-- Witness for C1 (amended): only Monday enabled and auto-assigned;
the three projected Mondays and the fire path agree on `a, b, a`. -/
theorem c1_projection_firing_consistency_witness :
    projectedAutoRefs c1wRuns = firedAutoRefs c1wCfg c1wRuns :=
  c1_projection_firing_consistency c1wCfg mondayMidnight 15 none c1wRuns
    (by decide) (by rfl) (by decide)

end AutoCloseSpec
